import Mathlib

set_option maxRecDepth 40000

/-!
Verification of `lcdb_test_data/build.py`, a small orchestration script that
provisions a conda environment keyed by the MD5 hash of a bundled
`requirements.txt`, writes a Snakefile, and shells out to snakemake.

The embedding models:
* the MD5 algorithm (used via `hashlib.md5` on the manifest bytes);
* a filesystem as sets of directory paths and a file association list;
* `Builder.__init__`, `Builder.build_environment` and `Builder.run_snakefile`
  as explicit state-passing functions that additionally emit an event trace
  recording the order of side effects (hash updates, file writes, directory
  creation, external commands, log lines).

Paths are lists of components; `os.path.join(a, b)` is `a ++ [b]` and
`os.path.relpath` drops the common prefix and prepends `..` components.
-/

namespace LcdbTestData

/-! ### MD5 (the `hashlib.md5` collaborator)

Bytes are naturals below 256; 32-bit words are naturals reduced mod `2 ^ 32`
explicitly at every arithmetic step, as in RFC 1321. -/

def mod32 : Nat := 4294967296

def mask32 : Nat := 4294967295

/-- Addition of 32-bit words, reduced mod `2 ^ 32`. -/
def add32 (a b : Nat) : Nat := (a + b) % mod32

/-- Bitwise complement of a 32-bit word. -/
def not32 (a : Nat) : Nat := Nat.xor a mask32

/-- Left rotation of a 32-bit word by `n` places. -/
def rotl32 (x n : Nat) : Nat :=
  Nat.lor (Nat.land (Nat.shiftLeft x n) mask32) (Nat.shiftRight x (32 - n))

/-- The 64 MD5 sine-derived round constants `K[i]`. -/
def md5K : List Nat :=
  [0xd76aa478, 0xe8c7b756, 0x242070db, 0xc1bdceee,
   0xf57c0faf, 0x4787c62a, 0xa8304613, 0xfd469501,
   0x698098d8, 0x8b44f7af, 0xffff5bb1, 0x895cd7be,
   0x6b901122, 0xfd987193, 0xa679438e, 0x49b40821,
   0xf61e2562, 0xc040b340, 0x265e5a51, 0xe9b6c7aa,
   0xd62f105d, 0x02441453, 0xd8a1e681, 0xe7d3fbc8,
   0x21e1cde6, 0xc33707d6, 0xf4d50d87, 0x455a14ed,
   0xa9e3e905, 0xfcefa3f8, 0x676f02d9, 0x8d2a4c8a,
   0xfffa3942, 0x8771f681, 0x6d9d6122, 0xfde5380c,
   0xa4beea44, 0x4bdecfa9, 0xf6bb4b60, 0xbebfbc70,
   0x289b7ec6, 0xeaa127fa, 0xd4ef3085, 0x04881d05,
   0xd9d4d039, 0xe6db99e5, 0x1fa27cf8, 0xc4ac5665,
   0xf4292244, 0x432aff97, 0xab9423a7, 0xfc93a039,
   0x655b59c3, 0x8f0ccc92, 0xffeff47d, 0x85845dd1,
   0x6fa87e4f, 0xfe2ce6e0, 0xa3014314, 0x4e0811a1,
   0xf7537e82, 0xbd3af235, 0x2ad7d2bb, 0xeb86d391]

/-- The 64 MD5 per-round left-rotation amounts `s[i]`. -/
def md5S : List Nat :=
  [7, 12, 17, 22, 7, 12, 17, 22, 7, 12, 17, 22, 7, 12, 17, 22,
   5, 9, 14, 20, 5, 9, 14, 20, 5, 9, 14, 20, 5, 9, 14, 20,
   4, 11, 16, 23, 4, 11, 16, 23, 4, 11, 16, 23, 4, 11, 16, 23,
   6, 10, 15, 21, 6, 10, 15, 21, 6, 10, 15, 21, 6, 10, 15, 21]

/-- The round function `F` of round `i` applied to words `b`, `c`, `d`. -/
def md5F (i b c d : Nat) : Nat :=
  if i < 16 then Nat.lor (Nat.land b c) (Nat.land (not32 b) d)
  else if i < 32 then Nat.lor (Nat.land d b) (Nat.land (not32 d) c)
  else if i < 48 then Nat.xor (Nat.xor b c) d
  else Nat.xor c (Nat.lor b (not32 d))

/-- The message-word index `g` consumed in round `i`. -/
def md5g (i : Nat) : Nat :=
  if i < 16 then i
  else if i < 32 then (5 * i + 1) % 16
  else if i < 48 then (3 * i + 5) % 16
  else (7 * i) % 16

/-- RFC 1321 padding: a `0x80` byte, zeros until the length is 56 mod 64,
then the original bit length as 8 little-endian bytes. The zero count is
`(56 - (len + 1)) mod 64`, computed as `(120 - (len + 1) % 64) % 64` so that
the subtraction never truncates (the subtrahend is at most 63). -/
def md5pad (msg : List Nat) : List Nat :=
  let bitlen := msg.length * 8
  let zeros := (120 - (msg.length + 1) % 64) % 64
  msg ++ [128] ++ List.replicate zeros 0 ++
    (List.range 8).map (fun i => Nat.shiftRight bitlen (8 * i) % 256)

/-- Split a (padded) message into 64-byte chunks. -/
def chunks64 (l : List Nat) : List (List Nat) :=
  (List.range (l.length / 64)).map (fun i => (l.drop (64 * i)).take 64)

/-- Little-endian 32-bit word number `g` of a 64-byte chunk. -/
def wordAt (chunk : List Nat) (g : Nat) : Nat :=
  chunk.getD (4 * g) 0 + 256 * chunk.getD (4 * g + 1) 0 +
    65536 * chunk.getD (4 * g + 2) 0 + 16777216 * chunk.getD (4 * g + 3) 0

/-- The running MD5 state, four 32-bit words. -/
structure MD5St where
  a : Nat
  b : Nat
  c : Nat
  d : Nat
deriving DecidableEq

/-- One of the 64 MD5 rounds. -/
def md5round (chunk : List Nat) (st : MD5St) (i : Nat) : MD5St :=
  let f := (md5F i st.b st.c st.d + st.a + md5K.getD i 0 +
    wordAt chunk (md5g i)) % mod32
  ⟨st.d, add32 st.b (rotl32 f (md5S.getD i 0)), st.b, st.c⟩

/-- Process one 64-byte chunk: 64 rounds, then add into the incoming state. -/
def md5chunk (st : MD5St) (chunk : List Nat) : MD5St :=
  let r := (List.range 64).foldl (md5round chunk) st
  ⟨add32 st.a r.a, add32 st.b r.b, add32 st.c r.c, add32 st.d r.d⟩

/-- Initial MD5 state. -/
def md5init : MD5St := ⟨0x67452301, 0xefcdab89, 0x98badcfe, 0x10325476⟩

/-- A 32-bit word as four little-endian bytes. -/
def wordLEBytes (w : Nat) : List Nat :=
  [w % 256, w / 256 % 256, w / 65536 % 256, w / 16777216 % 256]

/-- The 16-byte MD5 digest of a byte string. -/
def md5bytes (msg : List Nat) : List Nat :=
  let st := (chunks64 (md5pad msg)).foldl md5chunk md5init
  wordLEBytes st.a ++ wordLEBytes st.b ++ wordLEBytes st.c ++ wordLEBytes st.d

/-- The lower-case hex digit for `n < 16`. -/
def hexChar (n : Nat) : Char :=
  if n < 10 then Char.ofNat (48 + n) else Char.ofNat (87 + n)

/-- Two lower-case hex digits for a byte. -/
def byteHex (b : Nat) : List Char := [hexChar (b / 16), hexChar (b % 16)]

/-- Model of `hashlib.md5(msg).hexdigest()`: the 32-character lower-case hex digest. -/
def md5hex (msg : List Nat) : String :=
  String.mk (((md5bytes msg).map byteHex).flatten)

/-! ### Paths and the filesystem

A path is its list of components; `os.path.join(a, b)` is `a ++ [b]`. The
filesystem records the set of existing directories and an association list of
files (newest write first, as `open(..., 'wb')` truncates and rewrites). -/

/-- Log messages emitted through `logger.info` in `build.py`. -/
inductive LogMsg where
  | creating (p : List String)
  | building (p : List String)
  | builtEnv (p : List String)
  | usingExisting (p : List String)
  | runningSnakemake (p : List String)
deriving DecidableEq

/-- One observable side effect of the script, in program order: an
`md5hash.update` call, a file write, an `os.makedirs` call, an external
process spawn (argument-vector or shell-string form), or a log line. -/
inductive Event where
  | hashed (contents : List Nat)
  | wroteFile (p : List String) (contents : List Nat)
  | madeDirs (p : List String)
  | ranCmd (cmd : List String)
  | ranShell (cmd : String)
  | logInfo (m : LogMsg)
  | logErrorCmds (cmd : List String)
  | logErrorShell (cmd : String)
deriving DecidableEq

/-- The exceptions `build.py` can raise: `sp.CalledProcessError` with a
token-list command (from `build_environment`), `sp.CalledProcessError` with a
shell-string command (from `run_snakefile`), `FileExistsError` from
`os.makedirs`, and `TypeError` from `os.path.relpath(None, ...)`. -/
inductive PyError where
  | calledProcessError (retcode : Nat) (cmd : List String)
  | calledProcessErrorShell (retcode : Nat) (cmd : String)
  | fileExistsError (p : List String)
  | typeError
deriving DecidableEq

/-- Existing directories plus files with their contents. -/
structure FS where
  dirs : List (List String)
  files : List (List String × List Nat)
deriving DecidableEq

/-- Model of `os.path.exists`: the path is a known directory or a known file. -/
def pathExists (fs : FS) (p : List String) : Bool :=
  fs.dirs.contains p || fs.files.any (fun f => f.1 == p)

/-- Model of `open(p, 'wb').write(c)`: record the new contents (shadowing any older
entry for the same path). -/
def writeFile (fs : FS) (p : List String) (c : List Nat) : FS :=
  { fs with files := (p, c) :: fs.files }

/-- The current contents of file `p`, if present. -/
def readFile (fs : FS) (p : List String) : Option (List Nat) :=
  (fs.files.find? (fun f => f.1 == p)).map (fun f => f.2)

/-- The non-empty prefixes of a path: the directories `os.makedirs` creates. -/
def dirPrefixes (p : List String) : List (List String) :=
  (List.range p.length).map (fun k => p.take (k + 1))

/-- Add a directory and all its parents. -/
def mkdirAll (fs : FS) (p : List String) : FS :=
  { fs with dirs := fs.dirs ++ dirPrefixes p }

/-- Model of `os.makedirs(p)`: `FileExistsError` if the leaf already exists, otherwise
create the directory and any missing parents. -/
def makedirs (fs : FS) (p : List String) : Except PyError FS :=
  if pathExists fs p then .error (.fileExistsError p) else .ok (mkdirAll fs p)

/-- Length of the longest common component prefix of two paths. -/
def commonPrefixLen : List String → List String → Nat
  | a :: as, b :: bs => if a = b then commonPrefixLen as bs + 1 else 0
  | _, _ => 0

/-- Model of `os.path.relpath(p, base)` on normalized component paths: climb out of
the part of `base` not shared with `p`, then descend into the rest of `p`. -/
def relpathComponents (p base : List String) : List String :=
  List.replicate (base.length - commonPrefixLen p base) ".." ++
    p.drop (commonPrefixLen p base)

/-- Rendering of `os.path.relpath(p, base)` with `/` separators. -/
def relpathStr (p base : List String) : String :=
  String.intercalate "/" (relpathComponents p base)

/-! ### The Builder -/

/-- The mutable world the script acts on: the filesystem plus the
chronological trace of side effects. -/
structure SysState where
  fs : FS
  events : List Event
deriving DecidableEq

/-- The `Builder` object's own attributes: `self.data_dir`, `self.env_path`. -/
structure Builder where
  data_dir : List String
  env_path : Option (List String)
deriving DecidableEq

/-- Append one event to the trace. -/
def emit (st : SysState) (e : Event) : SysState :=
  { st with events := st.events ++ [e] }

/-- Model of `Builder.__init__(data_dir)`: store the attributes and create the target
directory (with parents) when it does not already exist; no-op otherwise. -/
def builderInit (data_dir : List String) (st : SysState) : Builder × SysState :=
  if pathExists st.fs data_dir then (⟨data_dir, none⟩, st)
  else
    (⟨data_dir, none⟩,
      { fs := mkdirAll st.fs data_dir,
        events := st.events ++ [.logInfo (.creating data_dir), .madeDirs data_dir] })

/-- The environment subdirectory derived from the manifest bytes:
`<data_dir>/.conda-env/<first 6 hex chars of the md5 digest>`. -/
def envPathOf (data_dir : List String) (contents : List Nat) : List String :=
  data_dir ++ [".conda-env", (md5hex contents).take 6]

/-- Path `<data_dir>/requirements.txt`. -/
def reqPathOf (data_dir : List String) : List String :=
  data_dir ++ ["requirements.txt"]

/-- The external environment-creation command of lines 66-67. -/
def condaCmd (rel_env : String) : List String :=
  ["conda", "create", "-y", "--file", "requirements.txt", "--prefix", rel_env,
   "python=3"]

/-- Model of `Builder.build_environment` (lines 44-83). `contents` is the bundled
`requirements.txt` resource byte string; `condaExit` is the exit status the
external `conda create` process would return if spawned. Returns the updated
`Builder` object, the updated world, and the raised exception if any. -/
def build_environment (b : Builder) (contents : List Nat) (condaExit : Nat)
    (st : SysState) : Builder × SysState × Option PyError :=
  let hexdigest := md5hex contents
  let st1 := emit st (.hashed contents)
  let req := b.data_dir ++ ["requirements.txt"]
  let st2 := { fs := writeFile st1.fs req contents,
               events := st1.events ++ [.wroteFile req contents] : SysState }
  let env_path := b.data_dir ++ [".conda-env", hexdigest.take 6]
  let rel_env := relpathStr env_path b.data_dir
  if pathExists st2.fs (env_path ++ [".success"]) then
    ({ b with env_path := some env_path },
      emit st2 (.logInfo (.usingExisting env_path)), none)
  else
    let st3 := emit st2 (.logInfo (.building env_path))
    match makedirs st3.fs env_path with
    | .error e => (b, st3, some e)
    | .ok fs2 =>
      let st4 := { fs := fs2, events := st3.events ++ [.madeDirs env_path] : SysState }
      let cmd := condaCmd rel_env
      let st5 := emit st4 (.ranCmd cmd)
      if condaExit ≠ 0 then
        (b, emit st5 (.logErrorCmds cmd), some (.calledProcessError condaExit cmd))
      else
        let st6 := emit st5 (.logInfo (.builtEnv env_path))
        let succ := env_path ++ [".success"]
        let st7 := { fs := writeFile st6.fs succ [],
                     events := st6.events ++ [.wroteFile succ [] ] : SysState }
        ({ b with env_path := some env_path }, st7, none)

/-- A Python value that `' '.join(...)` accepts: a string or a list of
strings. `run_snakefile`'s default argument is the string `""`. -/
inductive PyStrOrList where
  | str (s : String)
  | list (l : List String)
deriving DecidableEq

/-- Python `' '.join(x)`: over a list it joins the elements with the
separator; over a string it joins the string's characters (each character
being a length-1 string). -/
def pyJoin (sep : String) : PyStrOrList → String
  | .str s => String.intercalate sep (s.data.map (fun c => String.mk [c]))
  | .list l => String.intercalate sep l

/-- Model of `Builder.run_snakefile` (lines 93-121). `snakeExit` is the exit status
the spawned shell command would return. `os.path.relpath(self.env_path, ...)`
raises `TypeError` when `self.env_path` is still `None`. -/
def run_snakefile (b : Builder) (additional_args : PyStrOrList)
    (snakeExit : Nat) (st : SysState) : SysState × Option PyError :=
  let st1 := emit st (.logInfo (.runningSnakemake b.data_dir))
  let args := pyJoin " " additional_args
  match b.env_path with
  | none => (st1, some .typeError)
  | some ep =>
    let cmd := "source activate " ++ relpathStr ep b.data_dir ++
      "; snakemake " ++ args
    let st2 := emit st1 (.ranShell cmd)
    if snakeExit ≠ 0 then
      (emit st2 (.logErrorShell cmd),
        some (.calledProcessErrorShell snakeExit cmd))
    else (st2, none)

/-! ### Trace observations -/

/-- Whether an event is a spawn of the environment-creation command. -/
def isCreateCmd : Event → Bool
  | .ranCmd _ => true
  | _ => false

/-- How many external environment-creation commands a trace contains. -/
def countCmds (evts : List Event) : Nat := (evts.filter isCreateCmd).length

/-- Whether an event is the hash-update over the given bytes. -/
def isHashEvt (c : List Nat) : Event → Bool
  | .hashed c2 => c2 == c
  | _ => false

/-- Whether an event writes the given bytes to the given path. -/
def isWriteEvt (p : List String) (c : List Nat) : Event → Bool
  | .wroteFile p2 c2 => p2 == p && c2 == c
  | _ => false

/-- Ordering check over a trace: the first write of `contents` to `req`
strictly precedes the first hash-update over `contents`. -/
def writeThenHash (req : List String) (contents : List Nat)
    (evts : List Event) : Bool :=
  match List.findIdx? (isWriteEvt req contents) evts,
      List.findIdx? (isHashEvt contents) evts with
  | some i, some j => i < j
  | _, _ => false

/-! ### Concrete data for witnesses -/

/-- A world already containing just the target directory `data`. -/
def demoSt : SysState := ⟨⟨[["data"]], []⟩, []⟩

/-- A `Builder` for target directory `data`, fresh from `__init__`. -/
def demoB : Builder := ⟨["data"], none⟩

/-- A concrete four-byte manifest (the ASCII digits of `4982`). -/
def demoManifest : List Nat := [52, 57, 56, 50]

/-- A second manifest (the ASCII digits of `10760`) whose md5 digest shares
its first six hex characters, `8e0384`, with that of `demoManifest`. -/
def demoManifest2 : List Nat := [49, 48, 55, 54, 48]

/-- A successful first `build_environment` run from `demoSt`. -/
def demoRun1 : Builder × SysState × Option PyError :=
  build_environment demoB demoManifest 0 demoSt

/-- A failed first `build_environment` run (conda exits 1) from `demoSt`. -/
def demoFail : Builder × SysState × Option PyError :=
  build_environment demoB demoManifest 1 demoSt

/-! ### Sanity checks of the MD5 embedding against `hashlib` test vectors -/

example : md5hex [] = "d41d8cd98f00b204e9800998ecf8427e" := by decide

example : md5hex [97] = "0cc175b9c0f1b6a831c399e269772661" := by decide

example : md5hex demoManifest = "8e0384779e58ce2af40eb365b318cc32" := by
  decide

example : md5hex demoManifest2 = "8e03849e6e9b743611d4f3d35aca26cc" := by
  decide

example : md5hex (List.replicate 55 97) =
    "ef1772b6dff9a122358552954ad0df65" := by decide

example : md5hex (List.replicate 56 97) =
    "3b0c8ac703f828b04c6c197006d17218" := by decide

example : md5hex (List.replicate 57 97) =
    "652b906d60af96844ebd21b674f35e93" := by decide

example : md5hex (List.replicate 62 97) =
    "24612f0ce2c9d2cf2b022ef1e027a54f" := by decide

example : md5hex (List.replicate 63 97) =
    "b06521f39153d618550606be297466d5" := by decide

example : md5hex (List.replicate 64 97) =
    "014842d480b571495a4a0363793f7367" := by decide

example : md5hex (List.replicate 120 97) =
    "5f61c0ccad4cac44c75ff505e1f1e537" := by decide

/-! ### Supporting lemmas -/

/-- The padded message length is always a multiple of the 64-byte block
size, so `chunks64` never drops a tail. -/
theorem md5pad_length_mod (msg : List Nat) : (md5pad msg).length % 64 = 0 := by
  simp [md5pad]
  omega

/-- The digest always has 16 bytes. -/
theorem md5bytes_length (msg : List Nat) : (md5bytes msg).length = 16 := by
  simp [md5bytes, wordLEBytes]

/-- Hex rendering doubles the length. -/
theorem flatten_map_byteHex_length (l : List Nat) :
    ((l.map byteHex).flatten).length = 2 * l.length := by
  induction l with
  | nil => simp
  | cons a t ih => simp [byteHex, ih]; omega

/-- The hex digest always has 32 characters. -/
theorem md5hex_length (msg : List Nat) : (md5hex msg).length = 32 := by
  show (((md5bytes msg).map byteHex).flatten).length = 32
  rw [flatten_map_byteHex_length, md5bytes_length]

/-- Existence in a filesystem after a file write. -/
theorem pathExists_writeFile (fs : FS) (p : List String) (c : List Nat)
    (q : List String) :
    pathExists (writeFile fs p c) q = ((p == q) || pathExists fs q) := by
  simp [pathExists, writeFile, Bool.or_left_comm]

/-- Existence in a filesystem after `mkdirAll`. -/
theorem pathExists_mkdirAll (fs : FS) (p q : List String) :
    pathExists (mkdirAll fs p) q =
      (pathExists fs q || (dirPrefixes p).contains q) := by
  simp [pathExists, mkdirAll, Bool.or_assoc, Bool.or_comm, Bool.or_left_comm]

/-- Paths longer than `p` are not among the directories `mkdirAll p` adds. -/
theorem dirPrefixes_contains_eq_false (p q : List String)
    (h : p.length < q.length) : (dirPrefixes p).contains q = false := by
  simp only [dirPrefixes, List.contains, List.elem_eq_mem, List.mem_map,
    List.mem_range, decide_eq_false_iff_not, not_exists, not_and]
  intro k _ hq
  have := congrArg List.length hq
  simp [List.length_take] at this
  omega

/-- A non-empty path is among the directories `mkdirAll p` adds. -/
theorem dirPrefixes_contains_self (p : List String) (h : p ≠ []) :
    (dirPrefixes p).contains p = true := by
  simp only [dirPrefixes, List.contains, List.elem_eq_mem, List.mem_map,
    List.mem_range, decide_eq_true_eq]
  have hl : 0 < p.length := List.length_pos.mpr h
  exact ⟨p.length - 1, by omega, by rw [Nat.sub_add_cancel hl, List.take_length]⟩

/-- Every proper initial segment of `p` is among the directories
`mkdirAll p` adds. -/
theorem dirPrefixes_contains_take (p : List String) (k : Nat)
    (h : k < p.length) : (dirPrefixes p).contains (p.take (k + 1)) = true := by
  simp only [dirPrefixes, List.contains, List.elem_eq_mem, List.mem_map,
    List.mem_range, decide_eq_true_eq]
  exact ⟨k, h, rfl⟩

/-- Command counting distributes over trace concatenation. -/
theorem countCmds_append (a b : List Event) :
    countCmds (a ++ b) = countCmds a + countCmds b := by
  simp [countCmds, List.filter_append]

/-- Closed-form case analysis of `build_environment`: marker present (reuse),
environment directory already present (`FileExistsError`), external command
success, external command failure. -/
theorem build_environment_spec (b : Builder) (contents : List Nat) (ec : Nat)
    (st : SysState) :
    build_environment b contents ec st =
      (let ep := envPathOf b.data_dir contents
       let req := reqPathOf b.data_dir
       let fsW := writeFile st.fs req contents
       let evW := st.events ++
         [Event.hashed contents, Event.wroteFile req contents]
       let cmd := condaCmd (relpathStr ep b.data_dir)
       if pathExists fsW (ep ++ [".success"]) then
         ({ b with env_path := some ep },
           ⟨fsW, evW ++ [Event.logInfo (.usingExisting ep)]⟩, none)
       else if pathExists fsW ep then
         (b, ⟨fsW, evW ++ [Event.logInfo (.building ep)]⟩,
           some (PyError.fileExistsError ep))
       else if ec = 0 then
         ({ b with env_path := some ep },
           ⟨writeFile (mkdirAll fsW ep) (ep ++ [".success"]) [],
            evW ++ [Event.logInfo (.building ep), Event.madeDirs ep,
              Event.ranCmd cmd, Event.logInfo (.builtEnv ep),
              Event.wroteFile (ep ++ [".success"]) []]⟩, none)
       else
         (b, ⟨mkdirAll fsW ep,
            evW ++ [Event.logInfo (.building ep), Event.madeDirs ep,
              Event.ranCmd cmd, Event.logErrorCmds cmd]⟩,
           some (PyError.calledProcessError ec cmd))) := by
  by_cases hm : pathExists (writeFile st.fs (b.data_dir ++ ["requirements.txt"])
      contents)
      (b.data_dir ++ [".conda-env", (md5hex contents).take 6, ".success"]) = true
  · simp [build_environment, emit, envPathOf, reqPathOf, hm]
  · by_cases hd : pathExists (writeFile st.fs
        (b.data_dir ++ ["requirements.txt"]) contents)
        (b.data_dir ++ [".conda-env", (md5hex contents).take 6]) = true
    · simp [build_environment, emit, makedirs, envPathOf, reqPathOf, hm, hd]
    · by_cases hec : ec = 0
      · simp [build_environment, emit, makedirs, envPathOf, reqPathOf,
          hm, hd, hec]
      · simp [build_environment, emit, makedirs, envPathOf, reqPathOf,
          hm, hd, hec]

/-- When the marker file is already present, `build_environment` only
rewrites `requirements.txt`, logs reuse and records the path. -/
theorem build_environment_reuse (b : Builder) (contents : List Nat) (ec : Nat)
    (st : SysState)
    (hm : pathExists (writeFile st.fs (reqPathOf b.data_dir) contents)
      (envPathOf b.data_dir contents ++ [".success"]) = true) :
    build_environment b contents ec st =
      ({ b with env_path := some (envPathOf b.data_dir contents) },
       ⟨writeFile st.fs (reqPathOf b.data_dir) contents,
        st.events ++ [Event.hashed contents,
          Event.wroteFile (reqPathOf b.data_dir) contents,
          Event.logInfo (.usingExisting (envPathOf b.data_dir contents))]⟩,
       none) := by
  rw [build_environment_spec]
  simp only [envPathOf, reqPathOf, List.append_assoc, List.cons_append,
    List.nil_append] at hm ⊢
  simp [hm]

/-- A run of `build_environment` that raises nothing records the
fingerprint-derived path, leaves the marker file present, and has spawned at
most one external command. -/
theorem build_environment_success_state (b b1 : Builder) (contents : List Nat)
    (ec : Nat) (st st1 : SysState)
    (h : build_environment b contents ec st = (b1, st1, none)) :
    b1 = { b with env_path := some (envPathOf b.data_dir contents) } ∧
    pathExists st1.fs (envPathOf b.data_dir contents ++ [".success"]) = true ∧
    countCmds st1.events ≤ countCmds st.events + 1 := by
  rw [build_environment_spec] at h
  simp only [envPathOf, reqPathOf, List.append_assoc, List.cons_append,
    List.nil_append] at h ⊢
  split at h
  · next hm =>
    injection h with hb h2
    injection h2 with hst he
    subst hb
    subst hst
    refine ⟨rfl, hm, ?_⟩
    simp [countCmds_append, countCmds, isCreateCmd]
  · split at h
    · next hd =>
      injection h with hb h2
      injection h2 with hst he
      injection he
    · split at h
      · next hec =>
        injection h with hb h2
        injection h2 with hst he
        subst hb
        subst hst
        refine ⟨rfl, ?_, ?_⟩
        · rw [pathExists_writeFile]
          simp
        · simp [countCmds_append, countCmds, isCreateCmd]
      · next hec =>
        injection h with hb h2
        injection h2 with hst he
        injection he

/-! ### Claim theorems -/

/-- C1: invoking `build_environment` twice in succession with unchanged
manifest bytes runs the external creation command at most once. After a first
invocation that raises nothing, the second invocation finds the `.success`
marker in the fingerprint-derived subdirectory, performs no directory
creation and spawns no command (it only rewrites `requirements.txt` and logs
reuse), and records the same environment path. -/
theorem build_environment_idempotent (b b1 : Builder) (contents : List Nat)
    (ec1 ec2 : Nat) (st st1 : SysState)
    (h : build_environment b contents ec1 st = (b1, st1, none)) :
    build_environment b1 contents ec2 st1 =
      ({ b1 with env_path := some (envPathOf b1.data_dir contents) },
       ⟨writeFile st1.fs (reqPathOf b1.data_dir) contents,
        st1.events ++ [Event.hashed contents,
          Event.wroteFile (reqPathOf b1.data_dir) contents,
          Event.logInfo (.usingExisting (envPathOf b1.data_dir contents))]⟩,
       none) ∧
    b1.env_path = some (envPathOf b.data_dir contents) ∧
    countCmds st1.events ≤ countCmds st.events + 1 := by
  obtain ⟨hb, hmark, hcnt⟩ :=
    build_environment_success_state b b1 contents ec1 st st1 h
  subst hb
  refine ⟨?_, rfl, hcnt⟩
  apply build_environment_reuse
  rw [pathExists_writeFile]
  simp [hmark]

/-- Witness: a concrete successful run followed by a rerun; the rerun raises
nothing and the total number of spawned creation commands stays one. -/
theorem build_environment_idempotent_witness :
    (build_environment demoRun1.1 demoManifest 7 demoRun1.2.1).2.2 = none ∧
    countCmds
      (build_environment demoRun1.1 demoManifest 7 demoRun1.2.1).2.1.events =
      1 := by
  have h : build_environment demoB demoManifest 0 demoSt =
      (demoRun1.1, demoRun1.2.1, none) := by decide
  have H := build_environment_idempotent demoB demoRun1.1 demoManifest 0 7
    demoSt demoRun1.2.1 h
  rw [H.1]
  exact ⟨rfl, by decide⟩

/-- C2: when the environment subdirectory is fresh and conda exits non-zero,
`build_environment` raises `CalledProcessError` carrying that exit code and
the attempted command, writes no `.success` marker, and leaves the target
directory and the partially created environment subdirectory on disk; the
trace shows a single spawned command and no cleanup. -/
theorem build_environment_conda_failure (b : Builder) (contents : List Nat)
    (ec : Nat) (st : SysState)
    (hm : pathExists (writeFile st.fs (reqPathOf b.data_dir) contents)
      (envPathOf b.data_dir contents ++ [".success"]) = false)
    (hd : pathExists (writeFile st.fs (reqPathOf b.data_dir) contents)
      (envPathOf b.data_dir contents) = false)
    (hec : ec ≠ 0) (hdd : pathExists st.fs b.data_dir = true) :
    build_environment b contents ec st =
      (b, ⟨mkdirAll (writeFile st.fs (reqPathOf b.data_dir) contents)
             (envPathOf b.data_dir contents),
           st.events ++ [Event.hashed contents,
             Event.wroteFile (reqPathOf b.data_dir) contents,
             Event.logInfo (.building (envPathOf b.data_dir contents)),
             Event.madeDirs (envPathOf b.data_dir contents),
             Event.ranCmd (condaCmd
               (relpathStr (envPathOf b.data_dir contents) b.data_dir)),
             Event.logErrorCmds (condaCmd
               (relpathStr (envPathOf b.data_dir contents) b.data_dir))]⟩,
       some (PyError.calledProcessError ec (condaCmd
         (relpathStr (envPathOf b.data_dir contents) b.data_dir)))) ∧
    pathExists (mkdirAll (writeFile st.fs (reqPathOf b.data_dir) contents)
      (envPathOf b.data_dir contents))
      (envPathOf b.data_dir contents ++ [".success"]) = false ∧
    pathExists (mkdirAll (writeFile st.fs (reqPathOf b.data_dir) contents)
      (envPathOf b.data_dir contents)) (envPathOf b.data_dir contents) =
      true ∧
    pathExists (mkdirAll (writeFile st.fs (reqPathOf b.data_dir) contents)
      (envPathOf b.data_dir contents)) b.data_dir = true := by
  refine ⟨?_, ?_, ?_, ?_⟩
  · rw [build_environment_spec]
    simp only [envPathOf, reqPathOf, List.append_assoc, List.cons_append,
      List.nil_append] at hm hd ⊢
    simp [hm, hd, hec]
  · rw [pathExists_mkdirAll, hm, dirPrefixes_contains_eq_false]
    · rfl
    · simp only [List.length_append, List.length_cons, List.length_nil]
      omega
  · rw [pathExists_mkdirAll, dirPrefixes_contains_self]
    · simp
    · simp [envPathOf]
  · rw [pathExists_mkdirAll, pathExists_writeFile, hdd]
    simp

/-- Witness: the concrete failed run raises code 1 with the conda command,
leaves no marker, and leaves the environment subdirectory on disk. -/
theorem build_environment_conda_failure_witness :
    (build_environment demoB demoManifest 1 demoSt).2.2 =
      some (PyError.calledProcessError 1 (condaCmd
        (relpathStr (envPathOf ["data"] demoManifest) ["data"]))) ∧
    pathExists (mkdirAll (writeFile demoSt.fs (reqPathOf ["data"])
      demoManifest) (envPathOf ["data"] demoManifest))
      (envPathOf ["data"] demoManifest ++ [".success"]) = false ∧
    pathExists (mkdirAll (writeFile demoSt.fs (reqPathOf ["data"])
      demoManifest) (envPathOf ["data"] demoManifest))
      (envPathOf ["data"] demoManifest) = true := by
  have H := build_environment_conda_failure demoB demoManifest 1 demoSt
    (by decide) (by decide) (by decide) (by decide)
  rw [H.1]
  exact ⟨rfl, H.2.1, H.2.2.1⟩

/-- C3: a `build_environment` run that raises nothing records exactly
`<data_dir>/.conda-env/<first 6 hex characters of the md5 hex digest of the
manifest bytes>`; the digest has 32 characters, so `take 6` is exactly the
first six hexadecimal characters. -/
theorem build_environment_records_fingerprint_path (b b2 : Builder)
    (contents : List Nat) (ec : Nat) (st st2 : SysState)
    (h : build_environment b contents ec st = (b2, st2, none)) :
    b2.env_path =
      some (b.data_dir ++ [".conda-env", (md5hex contents).take 6]) ∧
    (md5hex contents).length = 32 := by
  obtain ⟨hb, -, -⟩ :=
    build_environment_success_state b b2 contents ec st st2 h
  subst hb
  exact ⟨rfl, md5hex_length contents⟩

/-- Witness: the concrete successful run records
`data/.conda-env/8e0384`. -/
theorem build_environment_records_fingerprint_path_witness :
    demoRun1.1.env_path =
      some (["data"] ++ [".conda-env", (md5hex demoManifest).take 6]) ∧
    (md5hex demoManifest).length = 32 :=
  build_environment_records_fingerprint_path demoB demoRun1.1 demoManifest 0
    demoSt demoRun1.2.1 (by decide)

/-- C5: with the `.success` marker absent but the environment subdirectory
already present (as after a failed partial build), re-invoking
`build_environment` raises `FileExistsError` for that subdirectory from the
directory creation, before any external command is spawned: the trace gains
no `ranCmd` event. -/
theorem build_environment_partial_rerun_collision (b : Builder)
    (contents : List Nat) (ec : Nat) (st : SysState)
    (hm : pathExists (writeFile st.fs (reqPathOf b.data_dir) contents)
      (envPathOf b.data_dir contents ++ [".success"]) = false)
    (hd : pathExists (writeFile st.fs (reqPathOf b.data_dir) contents)
      (envPathOf b.data_dir contents) = true) :
    build_environment b contents ec st =
      (b, ⟨writeFile st.fs (reqPathOf b.data_dir) contents,
        st.events ++ [Event.hashed contents,
          Event.wroteFile (reqPathOf b.data_dir) contents,
          Event.logInfo (.building (envPathOf b.data_dir contents))]⟩,
       some (PyError.fileExistsError (envPathOf b.data_dir contents))) ∧
    countCmds (st.events ++ [Event.hashed contents,
      Event.wroteFile (reqPathOf b.data_dir) contents,
      Event.logInfo (.building (envPathOf b.data_dir contents))]) =
      countCmds st.events := by
  constructor
  · rw [build_environment_spec]
    simp only [envPathOf, reqPathOf, List.append_assoc, List.cons_append,
      List.nil_append] at hm hd ⊢
    simp [hm, hd]
  · simp [countCmds_append, countCmds, isCreateCmd]

/-- Witness: rerunning after the concrete failed run (marker absent,
directory present) raises `FileExistsError` and the total number of spawned
creation commands stays one. -/
theorem build_environment_partial_rerun_collision_witness :
    (build_environment demoFail.1 demoManifest 0 demoFail.2.1).2.2 =
      some (PyError.fileExistsError (envPathOf ["data"] demoManifest)) ∧
    countCmds
      (build_environment demoFail.1 demoManifest 0 demoFail.2.1).2.1.events =
      1 := by
  have H := build_environment_partial_rerun_collision demoFail.1 demoManifest 0
    demoFail.2.1 (by decide) (by decide)
  rw [H.1]
  exact ⟨rfl, by decide⟩

/-- Reading a file back right after writing it yields the written bytes. -/
theorem readFile_writeFile_self (fs : FS) (p : List String) (c : List Nat) :
    readFile (writeFile fs p c) p = some c := by
  simp [readFile, writeFile]

/-- Writes to a different path do not affect a file's contents. -/
theorem readFile_writeFile_ne (fs : FS) (p q : List String) (c : List Nat)
    (h : (p == q) = false) :
    readFile (writeFile fs p c) q = readFile fs q := by
  simp [readFile, writeFile, List.find?, h]

/-- Directory creation does not affect file contents. -/
theorem readFile_mkdirAll (fs : FS) (p q : List String) :
    readFile (mkdirAll fs p) q = readFile fs q := rfl

/-- The marker path and the requirements path always differ (their lengths
differ by two). -/
theorem succPath_beq_reqPath (dd : List String) (t : String) :
    ((dd ++ [".conda-env", t, ".success"]) ==
      (dd ++ ["requirements.txt"])) = false := by
  rw [beq_eq_false_iff_ne]
  intro he
  have hl := congrArg List.length he
  simp [List.length_append] at hl

/-- C4: with a built environment recorded, `run_snakefile` spawns a single
shell command that first activates the environment by its path relative to
the target directory and then invokes snakemake with the passthrough tokens
appended verbatim, joined by single spaces; the token list `["-n", "-j4"]`
yields the literal suffix `-n -j4`. -/
theorem run_snakefile_command_line (dd ep toks : List String) (se : Nat)
    (st : SysState) :
    (∃ rest, (run_snakefile ⟨dd, some ep⟩ (.list toks) se st).1.events =
      st.events ++ Event.logInfo (.runningSnakemake dd) ::
        Event.ranShell ("source activate " ++ relpathStr ep dd ++
          "; snakemake " ++ String.intercalate " " toks) :: rest) ∧
    String.intercalate " " ["-n", "-j4"] = "-n -j4" := by
  refine ⟨?_, by decide⟩
  by_cases hse : se = 0
  · exact ⟨[], by simp [run_snakefile, emit, pyJoin, hse]⟩
  · exact ⟨[Event.logErrorShell ("source activate " ++ relpathStr ep dd ++
      "; snakemake " ++ String.intercalate " " toks)],
      by simp [run_snakefile, emit, pyJoin, hse]⟩

/-- C6 counterexample: two distinct manifests whose full md5 digests differ
but agree on the first six hex characters, so the derived environment
subdirectory paths coincide; after building with the first manifest,
rebuilding with the changed manifest reuses the old environment (no new
creation command, same recorded path). -/
theorem envPathOf_fingerprint_prefix_collision :
    demoManifest ≠ demoManifest2 ∧
    md5hex demoManifest ≠ md5hex demoManifest2 ∧
    envPathOf ["data"] demoManifest = envPathOf ["data"] demoManifest2 ∧
    (build_environment demoRun1.1 demoManifest2 0 demoRun1.2.1).2.2 = none ∧
    countCmds
      (build_environment demoRun1.1 demoManifest2 0 demoRun1.2.1).2.1.events =
      1 ∧
    (build_environment demoRun1.1 demoManifest2 0 demoRun1.2.1).1.env_path =
      demoRun1.1.env_path := by
  exact ⟨by decide, by decide, by decide, by decide, by decide, by decide⟩

/-- C6 amended: the derived environment subdirectory is determined by the
first six hex characters of the fingerprint, and distinct truncated
fingerprints yield distinct subdirectories; manifests whose truncated
fingerprints collide share the subdirectory. -/
theorem envPathOf_injective_on_prefix (dd : List String) (c1 c2 : List Nat)
    (h : (md5hex c1).take 6 ≠ (md5hex c2).take 6) :
    envPathOf dd c1 ≠ envPathOf dd c2 := by
  intro he
  simp only [envPathOf] at he
  have h2 := List.append_cancel_left he
  simp only [List.cons.injEq] at h2
  exact h h2.2.1

/-- Witness: the empty manifest and the one-byte manifest `a` have different
truncated fingerprints, hence different environment subdirectories. -/
theorem envPathOf_injective_on_prefix_witness :
    envPathOf ["data"] [] ≠ envPathOf ["data"] [97] :=
  envPathOf_injective_on_prefix ["data"] [] [97] (by decide)

/-- C7: `Builder.__init__` ensures the target directory: when the directory
already exists the constructor is a no-op that raises nothing; when it does
not exist, the directory and all its parent prefixes exist afterwards. -/
theorem builderInit_ensure_target_dir (dd : List String) (st : SysState) :
    (pathExists st.fs dd = true → builderInit dd st = (⟨dd, none⟩, st)) ∧
    (pathExists st.fs dd = false →
      builderInit dd st = (⟨dd, none⟩,
        ⟨mkdirAll st.fs dd,
         st.events ++ [Event.logInfo (.creating dd), Event.madeDirs dd]⟩) ∧
      ∀ k, k < dd.length →
        pathExists (builderInit dd st).2.fs (dd.take (k + 1)) = true) ∧
    (dd ≠ [] → pathExists (builderInit dd st).2.fs dd = true) := by
  refine ⟨?_, ?_, ?_⟩
  · intro h
    simp [builderInit, h]
  · intro h
    refine ⟨by simp [builderInit, h], ?_⟩
    intro k hk
    simp only [builderInit, h, Bool.false_eq_true, if_false]
    rw [pathExists_mkdirAll, dirPrefixes_contains_take dd k hk]
    simp
  · intro hne
    by_cases h : pathExists st.fs dd = true
    · simp [builderInit, h]
    · have h0 : pathExists st.fs dd = false := by simpa using h
      simp only [builderInit, h0, Bool.false_eq_true, if_false]
      rw [pathExists_mkdirAll, dirPrefixes_contains_self dd hne]
      simp

/-- Witness: creating `a/b` in an empty world creates both `a` and `a/b`;
with the directory pre-existing the constructor changes nothing. -/
theorem builderInit_ensure_target_dir_witness :
    pathExists (builderInit ["a", "b"] ⟨⟨[], []⟩, []⟩).2.fs
      (["a", "b"].take 1) = true ∧
    pathExists (builderInit ["a", "b"] ⟨⟨[], []⟩, []⟩).2.fs ["a", "b"] =
      true ∧
    builderInit ["data"] demoSt = (⟨["data"], none⟩, demoSt) := by
  have H := builderInit_ensure_target_dir ["a", "b"] ⟨⟨[], []⟩, []⟩
  have H2 := builderInit_ensure_target_dir ["data"] demoSt
  exact ⟨(H.2.1 (by decide)).2 0 (by decide), H.2.2 (by decide),
    H2.1 (by decide)⟩

/-- C8 amended: `build_environment` feeds the manifest bytes to the hash
update and then writes those same bytes to `requirements.txt` (hash first,
write second, both over the identical in-memory byte sequence); afterwards
the file's contents equal the hashed bytes. -/
theorem build_environment_hash_then_write (b : Builder) (contents : List Nat)
    (ec : Nat) (st : SysState) :
    (∃ rest, (build_environment b contents ec st).2.1.events =
      st.events ++ Event.hashed contents ::
        Event.wroteFile (reqPathOf b.data_dir) contents :: rest) ∧
    readFile (build_environment b contents ec st).2.1.fs
      (reqPathOf b.data_dir) = some contents := by
  by_cases hm : pathExists (writeFile st.fs (reqPathOf b.data_dir) contents)
      (envPathOf b.data_dir contents ++ [".success"]) = true
  · rw [build_environment_reuse b contents ec st hm]
    exact ⟨⟨[Event.logInfo (.usingExisting (envPathOf b.data_dir contents))],
      by simp⟩, readFile_writeFile_self _ _ _⟩
  · have hm0 : pathExists (writeFile st.fs (reqPathOf b.data_dir) contents)
        (envPathOf b.data_dir contents ++ [".success"]) = false := by
      simpa using hm
    rw [build_environment_spec]
    simp only [envPathOf, reqPathOf, List.append_assoc, List.cons_append,
      List.nil_append] at hm0 ⊢
    by_cases hd : pathExists (writeFile st.fs
        (b.data_dir ++ ["requirements.txt"]) contents)
        (b.data_dir ++ [".conda-env", (md5hex contents).take 6]) = true
    · refine ⟨⟨[Event.logInfo (.building
        (b.data_dir ++ [".conda-env", (md5hex contents).take 6]))], ?_⟩, ?_⟩
      · simp [hm0, hd]
      · simp [hm0, hd, readFile_writeFile_self]
    · by_cases hec : ec = 0
      · refine ⟨⟨[Event.logInfo (.building
            (b.data_dir ++ [".conda-env", (md5hex contents).take 6])),
          Event.madeDirs
            (b.data_dir ++ [".conda-env", (md5hex contents).take 6]),
          Event.ranCmd (condaCmd (relpathStr
            (b.data_dir ++ [".conda-env", (md5hex contents).take 6])
            b.data_dir)),
          Event.logInfo (.builtEnv
            (b.data_dir ++ [".conda-env", (md5hex contents).take 6])),
          Event.wroteFile
            (b.data_dir ++ [".conda-env", (md5hex contents).take 6,
              ".success"]) []], ?_⟩, ?_⟩
        · simp [hm0, hd, hec]
        · simp only [hm0, hd, hec, Bool.false_eq_true, if_false, if_true]
          rw [readFile_writeFile_ne _ _ _ _ (succPath_beq_reqPath _ _),
            readFile_mkdirAll, readFile_writeFile_self]
      · refine ⟨⟨[Event.logInfo (.building
            (b.data_dir ++ [".conda-env", (md5hex contents).take 6])),
          Event.madeDirs
            (b.data_dir ++ [".conda-env", (md5hex contents).take 6]),
          Event.ranCmd (condaCmd (relpathStr
            (b.data_dir ++ [".conda-env", (md5hex contents).take 6])
            b.data_dir)),
          Event.logErrorCmds (condaCmd (relpathStr
            (b.data_dir ++ [".conda-env", (md5hex contents).take 6])
            b.data_dir))], ?_⟩, ?_⟩
        · simp [hm0, hd, hec]
        · simp only [hm0, hd, hec, Bool.false_eq_true, if_false]
          rw [readFile_mkdirAll, readFile_writeFile_self]

/-- C8 counterexample: in the concrete run the hash-update over the manifest
bytes is the first event and the `requirements.txt` write the second, so the
write does not precede the hash-update over those bytes. -/
theorem build_environment_write_then_hash_false :
    writeThenHash (reqPathOf ["data"]) demoManifest demoRun1.2.1.events =
      false ∧
    List.findIdx? (isHashEvt demoManifest) demoRun1.2.1.events = some 0 ∧
    List.findIdx? (isWriteEvt (reqPathOf ["data"]) demoManifest)
      demoRun1.2.1.events = some 1 := by
  exact ⟨by decide, by decide, by decide⟩

/-- C9: called with a plain string (as its own docstring suggests), the
space join of `run_snakefile` operates over the string's characters,
producing a suffix with a space between every character; only a list of
whole tokens yields the documented space-joined suffix. -/
theorem run_snakefile_string_args_char_join (dd ep : List String) (s : String)
    (se : Nat) (st : SysState) :
    (∃ rest, (run_snakefile ⟨dd, some ep⟩ (.str s) se st).1.events =
      st.events ++ Event.logInfo (.runningSnakemake dd) ::
        Event.ranShell ("source activate " ++ relpathStr ep dd ++
          "; snakemake " ++
          String.intercalate " " (s.data.map (fun c => String.mk [c]))) ::
        rest) ∧
    pyJoin " " (.str "-j4") = "- j 4" ∧
    pyJoin " " (.str "-j4 -T") = "- j 4   - T" ∧
    pyJoin " " (.list ["-j4", "-T"]) = "-j4 -T" ∧
    pyJoin " " (.str "-j4 -T") ≠ pyJoin " " (.list ["-j4", "-T"]) := by
  refine ⟨?_, by decide, by decide, by decide, by decide⟩
  by_cases hse : se = 0
  · exact ⟨[], by simp [run_snakefile, emit, pyJoin, hse]⟩
  · exact ⟨[Event.logErrorShell ("source activate " ++ relpathStr ep dd ++
      "; snakemake " ++
      String.intercalate " " (s.data.map (fun c => String.mk [c])))],
      by simp [run_snakefile, emit, pyJoin, hse]⟩

/-- C10: calling `run_snakefile` while `env_path` is still `None` (before a
successful `build_environment`) raises `TypeError` from the relative-path
computation, which is distinct from the process-execution error; after a
`build_environment` run that raises nothing, `env_path` holds a path and
`run_snakefile` can never raise that `TypeError`. -/
theorem run_snakefile_requires_built_env (dd : List String)
    (args : PyStrOrList) (se : Nat) (st : SysState) (b b2 : Builder)
    (contents : List Nat) (ec : Nat) (st1 st2 : SysState)
    (h : build_environment b contents ec st1 = (b2, st2, none)) :
    run_snakefile ⟨dd, none⟩ args se st =
      (emit st (.logInfo (.runningSnakemake dd)), some PyError.typeError) ∧
    (∀ r c, PyError.typeError ≠ PyError.calledProcessErrorShell r c) ∧
    b2.env_path = some (envPathOf b.data_dir contents) ∧
    (∀ a2 se2 stx,
      (run_snakefile b2 a2 se2 stx).2 ≠ some PyError.typeError) := by
  obtain ⟨hb, -, -⟩ :=
    build_environment_success_state b b2 contents ec st1 st2 h
  subst hb
  refine ⟨by simp [run_snakefile], ?_, rfl, ?_⟩
  · intro r c hcon
    exact PyError.noConfusion hcon
  · intro a2 se2 stx
    simp only [run_snakefile]
    by_cases hse : se2 = 0
    · simp [hse]
    · simp [hse]

/-- Witness: with `env_path` unset the concrete call raises `TypeError`;
after the concrete successful build the concrete call does not. -/
theorem run_snakefile_requires_built_env_witness :
    run_snakefile ⟨["data"], none⟩ (.str "") 0 demoSt =
      (emit demoSt (.logInfo (.runningSnakemake ["data"])),
        some PyError.typeError) ∧
    (run_snakefile demoRun1.1 (.list ["-n", "-j4"]) 0 demoRun1.2.1).2 ≠
      some PyError.typeError := by
  have H := run_snakefile_requires_built_env ["data"] (.str "") 0 demoSt demoB
    demoRun1.1 demoManifest 0 demoSt demoRun1.2.1 (by decide)
  exact ⟨H.1, H.2.2.2 (.list ["-n", "-j4"]) 0 demoRun1.2.1⟩

end LcdbTestData
